import Mathlib

/-!
Verification development for the Excel-to-PDF form filler
(`ExcelFillPDF.py`).  The program reads a spreadsheet into a table,
and for each row resolves a field-assignment dictionary (regular text
columns, date columns rendered `MM/DD/YYYY`, and checkbox columns looked
up in per-column option tables), applies it to the first page of a fresh
copy of the template document, and writes one output file per row.

The embedding below mirrors `fill_pdf_with_data` and the static mapping
tables.  Python dictionaries are modelled as association lists where the
most recent insertion is first and lookup takes the first match, so that
`d[k] = v` and `d.update(...)` have Python's overwrite semantics.  The
two external library operations the program relies on (`pd.to_datetime`
and pypdf's `update_page_form_field_values`) are not part of this
repository's source; they are modelled from the spec, as marked on their
doc comments, and the resolution pass is parametric in the date parser.
-/

namespace ExcelFillPDF

/-- A raw spreadsheet cell: either a missing value (pandas `NaN`, detected
by `pd.isnull`) or a value whose Python `str(...)` rendering is `s`. -/
inductive CellValue
  | null
  | str (s : String)
deriving DecidableEq

/-- Python `str(...)` of a cell.  `str` of the pandas missing marker
(float `nan`) renders as `"nan"`. -/
def pyStr : CellValue → String
  | CellValue.null => "nan"
  | CellValue.str s => s

/-- Predicate `pd.isnull` on a cell. -/
def pdIsNull : CellValue → Bool
  | CellValue.null => true
  | CellValue.str _ => false

/-- Python `str.strip()`: drop leading and trailing whitespace
characters.  Modelled on the character list so it evaluates inside the
kernel. -/
def pyStrip (s : String) : String :=
  String.mk (((s.data.dropWhile Char.isWhitespace).reverse.dropWhile
    Char.isWhitespace).reverse)

/-- Python `str.lower()` (ASCII case map, which covers every option key
of the mapping tables). -/
def pyLower (s : String) : String :=
  String.mk (s.data.map Char.toLower)

/-- One record (row) of the input table: column name to raw cell value. -/
abbrev Record := List (String × CellValue)

/-- A Python string-keyed dictionary lookup (`d.get(k)` / guarded `d[k]`):
first match in the association-list model. -/
def pyGet {α : Type} (d : List (String × α)) (k : String) : Option α :=
  (d.find? (fun p => p.1 == k)).map (fun p => p.2)

/-- Access `row[col]` for a column known to be present; absent columns (never
reached: every use is guarded by a `col in df.columns` test) default to
the missing marker. -/
def rowCell (row : Record) (col : String) : CellValue :=
  (pyGet row col).getD CellValue.null

/-- The accumulated field-assignment dictionary `field_values`. -/
abbrev Dict := List (String × String)

/-- Assignment `d[k] = v` on a Python dict: in the association-list model the new
binding is prepended and shadows any older binding of `k`. -/
def dictInsert (d : Dict) (k v : String) : Dict :=
  (k, v) :: d

/-- Merge `d.update(fl)` on a Python dict: insert the pairs of `fl` in order,
so a later pair wins on key collision. -/
def dictUpdate (d : Dict) (fl : List (String × String)) : Dict :=
  fl.foldl (fun a kv => dictInsert a kv.1 kv.2) d

/-- The binding a `d.update(fl)` call leaves for key `k`: the last pair
of `fl` with that key, if any. -/
def flGet (fl : List (String × String)) (k : String) : Option String :=
  pyGet fl.reverse k

/-- Warnings logged by the filler, one constructor per `logging.warning`
call site of `fill_pdf_with_data`. -/
inductive Warning
  | missingColumn (col : String)
  | dateParseFailed (value : String)
  | unrecognizedCheckbox (value : String) (col : String)
  | missingCheckboxColumn (col : String)
  | noAcroForm
deriving DecidableEq

/-- A calendar date as produced by the external date parser. -/
structure SimpleDate where
  year : Nat
  month : Nat
  day : Nat
deriving DecidableEq

/-- Left-pad the decimal rendering of `n` with zeros to width 2. -/
def pad2 (n : Nat) : String :=
  if n < 10 then "0" ++ toString n else toString n

/-- Left-pad the decimal rendering of `n` with zeros to width 4. -/
def pad4 (n : Nat) : String :=
  if n < 10 then "000" ++ toString n
  else if n < 100 then "00" ++ toString n
  else if n < 1000 then "0" ++ toString n
  else toString n

/-- Rendering of a date with `strftime` format `%m/%d/%Y`. -/
def formatMMDDYYYY (d : SimpleDate) : String :=
  pad2 d.month ++ "/" ++ pad2 d.day ++ "/" ++ pad4 d.year

/-- Split a character list on a separator character (`str.split`),
keeping empty groups. -/
def splitOnChar (sep : Char) : List Char → List (List Char)
  | [] => [[]]
  | c :: cs =>
    let r := splitOnChar sep cs
    if c = sep then [] :: r
    else
      match r with
      | [] => [[c]]
      | g :: gs => (c :: g) :: gs

/-- Read a non-empty all-digit character group as a decimal number. -/
def listToNat? (cs : List Char) : Option Nat :=
  if cs ≠ [] && cs.all Char.isDigit then
    some (cs.foldl (fun n c => 10 * n + (c.toNat - 48)) 0)
  else none

/-- Modelled from the spec: `pd.to_datetime` is pandas library code, not
part of this repository.  The spec only requires that a parseable date
representation is parsed and an unparseable one raises; this concrete
instance accepts the ISO `YYYY-MM-DD` representation used by the spec's
scenarios and rejects everything else.  The resolution pass itself is
parametric in the parser. -/
def parseIsoDate (s : String) : Option SimpleDate :=
  match splitOnChar (Char.ofNat 45) s.data with
  | [y, m, d] =>
    match listToNat? y, listToNat? m, listToNat? d with
    | some yn, some mn, some dn =>
      if 1 ≤ mn && mn ≤ 12 && 1 ≤ dn && dn ≤ 31 then
        some ⟨yn, mn, dn⟩
      else none
    | _, _, _ => none
  | _ => none

/-- One entry of a checkbox option table: the Python dict stored under a
normalized option value.  `truthy` is the dict's Python truthiness (a
non-empty dict is truthy) and `fields` is its `fields` sub-dict when the
key is present (`none` models a dict without a `fields` key). -/
structure CheckboxInfo where
  truthy : Bool
  fields : Option (List (String × String))
deriving DecidableEq

/-- The checkbox mapping table: column name to option table, option table
keyed by normalized cell value. -/
abbrev CBMappings := List (String × List (String × CheckboxInfo))

/-- One iteration of the regular-field loop of `fill_pdf_with_data`
(lines 166-183): if the column is present, coerce the cell (null to empty
string; date columns through the parser with a warning-and-raw-string
fallback; otherwise plain `str`) and store it under the target field
name; if absent, warn and skip. -/
def regFieldStep (cols : List String) (row : Record) (date_fields : List String)
    (parseDate : String → Option SimpleDate)
    (s : Dict × List Warning) (cf : String × String) : Dict × List Warning :=
  if cols.contains cf.1 then
    let v := rowCell row cf.1
    let coerced : String × List Warning :=
      if pdIsNull v then ("", s.2)
      else
        if date_fields.contains cf.1 then
          match parseDate (pyStr v) with
          | some d => (formatMMDDYYYY d, s.2)
          | none => (pyStr v, s.2 ++ [Warning.dateParseFailed (pyStr v)])
        else (pyStr v, s.2)
    (dictInsert s.1 cf.2 coerced.1, coerced.2)
  else (s.1, s.2 ++ [Warning.missingColumn cf.1])

/-- The regular-field loop (`for excel_column, pdf_field_name in
field_mapping.items()`), threading the `field_values` dict and the
warning log. -/
def resolveRegularFields (cols : List String) (row : Record) (date_fields : List String)
    (parseDate : String → Option SimpleDate) :
    List (String × String) → Dict × List Warning → Dict × List Warning
  | [], s => s
  | cf :: rest, s =>
    resolveRegularFields cols row date_fields parseDate rest
      (regFieldStep cols row date_fields parseDate s cf)

/-- One iteration of the checkbox loop of `fill_pdf_with_data`
(lines 186-197): if the column is present, normalize the cell with
`str(...).strip().lower()`, look it up in the option table, and when the
result is truthy and carries a `fields` dict, merge that dict into
`field_values`; otherwise warn. -/
def checkboxStep (cols : List String) (row : Record)
    (s : Dict × List Warning)
    (co : String × List (String × CheckboxInfo)) : Dict × List Warning :=
  if cols.contains co.1 then
    let v := rowCell row co.1
    let vs := pyLower (pyStrip (pyStr v))
    match pyGet co.2 vs with
    | some info =>
      if info.truthy && info.fields.isSome then
        (dictUpdate s.1 (info.fields.getD []), s.2)
      else (s.1, s.2 ++ [Warning.unrecognizedCheckbox (pyStr v) co.1])
    | none => (s.1, s.2 ++ [Warning.unrecognizedCheckbox (pyStr v) co.1])
  else (s.1, s.2 ++ [Warning.missingCheckboxColumn co.1])

/-- The checkbox loop (`for excel_column, options in
checkbox_mappings.items()`). -/
def resolveCheckboxFields (cols : List String) (row : Record) :
    CBMappings → Dict × List Warning → Dict × List Warning
  | [], s => s
  | co :: rest, s =>
    resolveCheckboxFields cols row rest (checkboxStep cols row s co)

/-- The full per-row field resolution of `fill_pdf_with_data`
(lines 162-197): the regular-field pass followed by the checkbox pass,
starting from an empty `field_values` dict. -/
def resolveFields (cols : List String) (row : Record)
    (field_mapping : List (String × String)) (checkbox_mappings : CBMappings)
    (date_fields : List String) (parseDate : String → Option SimpleDate) :
    Dict × List Warning :=
  resolveCheckboxFields cols row checkbox_mappings
    (resolveRegularFields cols row date_fields parseDate field_mapping ([], []))

/-- One page of a document: its form-field widget annotations, as pairs
of field identifier and current value. -/
structure Page where
  annots : List (String × String)
deriving DecidableEq

/-- A document: its pages, whether its catalog carries an `/AcroForm`
interactive-form dictionary, and the `/NeedAppearances` rendering hint. -/
structure PdfDocument where
  pages : List Page
  hasAcroForm : Bool
  needAppearances : Bool
deriving DecidableEq

/-- Set the value of every widget annotation on a page whose field
identifier has an assignment; identifiers with no widget on the page are
ignored. -/
def updatePageFields (p : Page) (fv : Dict) : Page :=
  ⟨p.annots.map (fun a =>
    match pyGet fv a.1 with
    | some v => (a.1, v)
    | none => a)⟩

/-- Modelled from the spec: pypdf's
`PdfWriter.update_page_form_field_values` is library code, not part of
this repository.  Per the spec's ApplyFields and MergeFormMetadata
descriptions, it writes the resolved assignments onto the widget
annotations of the given page by matching field identifiers, silently
ignoring identifiers with no corresponding field, and has no effect on a
document lacking an interactive-form dictionary. -/
def update_page_form_field_values (doc : PdfDocument) (i : Nat) (fv : Dict) :
    PdfDocument :=
  if doc.hasAcroForm then
    match doc.pages.get? i with
    | some p => { doc with pages := doc.pages.set i (updatePageFields p fv) }
    | none => doc
  else doc

/-- The output of one loop iteration: the name the file is saved under,
the `field_values` dict that was applied, the written document, and the
warnings logged during the iteration. -/
structure RowOutput where
  filename : String
  fieldValues : Dict
  doc : PdfDocument
  warnings : List Warning
deriving DecidableEq

/-- Output-name selection (lines 203-206): the `filename` column's value
with `.pdf` appended when that column exists, else `output_<index+1>.pdf`
from the 0-based `iterrows` index. -/
def outputFilename (cols : List String) (row : Record) (index : Nat) : String :=
  if cols.contains "filename" then pyStr (rowCell row "filename") ++ ".pdf"
  else "output_" ++ toString (index + 1) ++ ".pdf"

/-- One iteration of the row loop of `fill_pdf_with_data`: re-read the
template, copy its pages into a fresh writer, copy the `/AcroForm` and
set `/NeedAppearances` when the template has one (else warn), resolve
the field assignments, apply them to `writer.pages[0]` (an exception —
`none` — when the template has no pages), and save under the resolved
output name. -/
def processRow (tmpl : PdfDocument) (cols : List String) (row : Record) (index : Nat)
    (field_mapping : List (String × String)) (checkbox_mappings : CBMappings)
    (date_fields : List String) (parseDate : String → Option SimpleDate) :
    Option RowOutput :=
  let writer : PdfDocument := ⟨tmpl.pages, tmpl.hasAcroForm, tmpl.hasAcroForm⟩
  let formWarnings : List Warning :=
    if tmpl.hasAcroForm then [] else [Warning.noAcroForm]
  let res := resolveFields cols row field_mapping checkbox_mappings date_fields parseDate
  match writer.pages.get? 0 with
  | none => none
  | some _ =>
    some { filename := outputFilename cols row index,
           fieldValues := res.1,
           doc := update_page_form_field_values writer 0 res.1,
           warnings := formWarnings ++ res.2 }

/-- The row loop of `fill_pdf_with_data`, from a given starting index:
`none` models the exception that aborts the whole run. -/
def processRows (tmpl : PdfDocument) (cols : List String)
    (field_mapping : List (String × String)) (checkbox_mappings : CBMappings)
    (date_fields : List String) (parseDate : String → Option SimpleDate) :
    Nat → List Record → Option (List RowOutput)
  | _, [] => some []
  | index, row :: rest =>
    match processRow tmpl cols row index field_mapping checkbox_mappings
        date_fields parseDate with
    | none => none
    | some out =>
      match processRows tmpl cols field_mapping checkbox_mappings
          date_fields parseDate (index + 1) rest with
      | none => none
      | some outs => some (out :: outs)

/-- Entry point `fill_pdf_with_data` on an already-read table (columns plus rows):
the row loop started at `iterrows` index 0. -/
def fill_pdf_with_data (tmpl : PdfDocument) (cols : List String) (rows : List Record)
    (field_mapping : List (String × String)) (checkbox_mappings : CBMappings)
    (date_fields : List String) (parseDate : String → Option SimpleDate) :
    Option (List RowOutput) :=
  processRows tmpl cols field_mapping checkbox_mappings date_fields parseDate 0 rows

/-- The module-level `FIELD_MAPPING` constant. -/
def FIELD_MAPPING : List (String × String) :=
  [("Name(s)", "f1_01[0]"),
   ("Identifying number", "f1_02[0]"),
   ("Year", "f1_03[0]"),
   ("Make", "f1_04[0]"),
   ("Model", "f1_05[0]"),
   ("VIN", "f1_06[0]"),
   ("Date in Service", "f1_07[0]")]

/-- The module-level `CHECKBOX_MAPPINGS` constant. -/
def CHECKBOX_MAPPINGS : CBMappings :=
  [("more than $25,000?",
    [("yes", ⟨true, some [("c1_1[0]", "/1"), ("c1_1[1]", "")]⟩),
     ("no", ⟨true, some [("c1_1[0]", ""), ("c1_1[1]", "/2")]⟩)]),
   ("new clean vehicle?",
    [("yes", ⟨true, some [("c1_2[0]", "/1"), ("c1_2[1]", "")]⟩),
     ("no", ⟨true, some [("c1_2[0]", ""), ("c1_2[1]", "/2")]⟩)])]

/-- The module-level `DATE_FIELDS` constant. -/
def DATE_FIELDS : List String := ["Date in Service"]

/-- Characterization helper: the value the regular-field loop stores for
a mapping entry `cf`, or `none` when the entry's column is absent and
the entry is skipped. -/
def regValue? (cols : List String) (row : Record) (date_fields : List String)
    (parseDate : String → Option SimpleDate) (cf : String × String) :
    Option String :=
  if cols.contains cf.1 then
    let v := rowCell row cf.1
    if pdIsNull v then some ""
    else
      if date_fields.contains cf.1 then
        match parseDate (pyStr v) with
        | some d => some (formatMMDDYYYY d)
        | none => some (pyStr v)
      else some (pyStr v)
  else none

/-- Characterization helper: the binding the whole regular-field pass
leaves for target field `f` — the value of the last mapping entry that
targets `f` and is not skipped. -/
def regAssign? (cols : List String) (row : Record) (date_fields : List String)
    (parseDate : String → Option SimpleDate) (f : String) :
    List (String × String) → Option String
  | [] => none
  | cf :: rest =>
    match regAssign? cols row date_fields parseDate f rest with
    | some v => some v
    | none => if cf.2 == f then regValue? cols row date_fields parseDate cf else none

/-- Characterization helper: the field dict one checkbox column merges,
or `none` when the column is absent, the normalized value matches no
option, or the matched entry is falsy or has no `fields` dict. -/
def cbMatch? (cols : List String) (row : Record)
    (co : String × List (String × CheckboxInfo)) :
    Option (List (String × String)) :=
  if cols.contains co.1 then
    match pyGet co.2 (pyLower (pyStrip (pyStr (rowCell row co.1)))) with
    | some info => if info.truthy && info.fields.isSome then info.fields else none
    | none => none
  else none

/-- Characterization helper: the binding the whole checkbox pass leaves
for field identifier `k` — from the last matched column whose merged
dict binds `k`. -/
def cbAssign? (cols : List String) (row : Record) (k : String) :
    CBMappings → Option String
  | [] => none
  | co :: rest =>
    match cbAssign? cols row k rest with
    | some v => some v
    | none =>
      match cbMatch? cols row co with
      | some fl => flGet fl k
      | none => none

theorem pyGet_nil {α : Type} (k : String) : pyGet ([] : List (String × α)) k = none := rfl

theorem pyGet_cons {α : Type} (p : String × α) (d : List (String × α)) (k : String) :
    pyGet (p :: d) k = if p.1 == k then some p.2 else pyGet d k := by
  cases hb : p.1 == k <;> simp [pyGet, List.find?_cons, hb]

theorem pyGet_append {α : Type} (l1 l2 : List (String × α)) (k : String) :
    pyGet (l1 ++ l2) k = (pyGet l1 k).or (pyGet l2 k) := by
  simp only [pyGet, List.find?_append]
  cases l1.find? (fun p => p.1 == k) <;> simp

theorem dictUpdate_eq (d : Dict) (fl : List (String × String)) :
    dictUpdate d fl = fl.reverse ++ d := by
  induction fl generalizing d with
  | nil => rfl
  | cons kv fl ih =>
    simp only [dictUpdate, List.foldl_cons, List.reverse_cons] at *
    rw [ih (dictInsert d kv.1 kv.2)]
    simp [dictInsert]

theorem pyGet_dictUpdate (d : Dict) (fl : List (String × String)) (k : String) :
    pyGet (dictUpdate d fl) k = (flGet fl k).or (pyGet d k) := by
  rw [dictUpdate_eq, pyGet_append]; rfl

theorem pyGet_dictInsert (d : Dict) (k0 v0 k : String) :
    pyGet (dictInsert d k0 v0) k = if k0 == k then some v0 else pyGet d k := by
  simpa [dictInsert] using pyGet_cons (k0, v0) d k

theorem regFieldStep_fst (cols : List String) (row : Record) (date_fields : List String)
    (parseDate : String → Option SimpleDate) (s : Dict × List Warning)
    (cf : String × String) :
    (regFieldStep cols row date_fields parseDate s cf).1 =
      match regValue? cols row date_fields parseDate cf with
      | some v => dictInsert s.1 cf.2 v
      | none => s.1 := by
  unfold regFieldStep regValue?
  cases hc : cols.contains cf.1 with
  | false => simp [hc]
  | true =>
    cases hv : rowCell row cf.1 with
    | null => simp [hc, hv, pdIsNull]
    | str v =>
      cases hd : date_fields.contains cf.1 with
      | false => simp [hc, hv, hd, pdIsNull]
      | true =>
        cases hp : parseDate (pyStr (CellValue.str v)) with
        | none => simp [hc, hv, hd, hp, pdIsNull]
        | some d => simp [hc, hv, hd, hp, pdIsNull]

theorem checkboxStep_fst (cols : List String) (row : Record)
    (s : Dict × List Warning) (co : String × List (String × CheckboxInfo)) :
    (checkboxStep cols row s co).1 =
      match cbMatch? cols row co with
      | some fl => dictUpdate s.1 fl
      | none => s.1 := by
  unfold checkboxStep cbMatch?
  cases hc : cols.contains co.1 with
  | false => simp [hc]
  | true =>
    cases hl : pyGet co.2 (pyLower (pyStrip (pyStr (rowCell row co.1)))) with
    | none => simp [hc, hl]
    | some info =>
      cases ht : info.truthy with
      | false => simp [hc, hl, ht]
      | true =>
        cases hf : info.fields with
        | none => simp [hc, hl, ht, hf]
        | some fl => simp [hc, hl, ht, hf]

theorem resolveRegularFields_get (cols : List String) (row : Record)
    (date_fields : List String) (parseDate : String → Option SimpleDate)
    (f : String) (fm : List (String × String)) (s : Dict × List Warning) :
    pyGet (resolveRegularFields cols row date_fields parseDate fm s).1 f =
      match regAssign? cols row date_fields parseDate f fm with
      | some v => some v
      | none => pyGet s.1 f := by
  induction fm generalizing s with
  | nil => simp [resolveRegularFields, regAssign?]
  | cons cf rest ih =>
    simp only [resolveRegularFields, regAssign?]
    rw [ih]
    cases hr : regAssign? cols row date_fields parseDate f rest with
    | some v => simp
    | none =>
      simp only []
      rw [regFieldStep_fst]
      cases hv : regValue? cols row date_fields parseDate cf with
      | none => simp [hv]
      | some v =>
        simp only []
        rw [pyGet_dictInsert]
        cases hk : cf.2 == f <;> simp [hk]

theorem resolveCheckboxFields_get (cols : List String) (row : Record)
    (k : String) (cm : CBMappings) (s : Dict × List Warning) :
    pyGet (resolveCheckboxFields cols row cm s).1 k =
      match cbAssign? cols row k cm with
      | some v => some v
      | none => pyGet s.1 k := by
  induction cm generalizing s with
  | nil => simp [resolveCheckboxFields, cbAssign?]
  | cons co rest ih =>
    simp only [resolveCheckboxFields, cbAssign?]
    rw [ih]
    cases hr : cbAssign? cols row k rest with
    | some v => simp
    | none =>
      simp only []
      rw [checkboxStep_fst]
      cases hm : cbMatch? cols row co with
      | none => simp [hm]
      | some fl =>
        simp only []
        rw [pyGet_dictUpdate]
        cases hk : flGet fl k <;> simp [hk, Option.or]

theorem resolveFields_get (cols : List String) (row : Record)
    (fm : List (String × String)) (cm : CBMappings) (date_fields : List String)
    (parseDate : String → Option SimpleDate) (k : String) :
    pyGet (resolveFields cols row fm cm date_fields parseDate).1 k =
      match cbAssign? cols row k cm with
      | some v => some v
      | none => regAssign? cols row date_fields parseDate k fm := by
  unfold resolveFields
  rw [resolveCheckboxFields_get]
  cases cbAssign? cols row k cm with
  | some v => simp
  | none =>
    simp only []
    rw [resolveRegularFields_get]
    cases regAssign? cols row date_fields parseDate k fm <;> simp [pyGet_nil]

theorem cbAssign?_eq_none (cols : List String) (row : Record) (k : String)
    (cm : CBMappings)
    (h : ∀ co ∈ cm, ∀ fl, cbMatch? cols row co = some fl → flGet fl k = none) :
    cbAssign? cols row k cm = none := by
  induction cm with
  | nil => rfl
  | cons co rest ih =>
    have hrest : cbAssign? cols row k rest = none :=
      ih (fun co2 h2 => h co2 (List.mem_cons_of_mem _ h2))
    simp only [cbAssign?, hrest]
    cases hm : cbMatch? cols row co with
    | none => rfl
    | some fl => exact h co (List.mem_cons_self _ _) fl hm

theorem cbAssign?_cons_of_match (cols : List String) (row : Record) (k v : String)
    (c : String) (opts : List (String × CheckboxInfo)) (fl : List (String × String))
    (post : CBMappings)
    (hpost : cbAssign? cols row k post = none)
    (hm : cbMatch? cols row (c, opts) = some fl)
    (hkv : flGet fl k = some v) :
    cbAssign? cols row k ((c, opts) :: post) = some v := by
  simp [cbAssign?, hpost, hm, hkv]

theorem cbAssign?_append_of_some (cols : List String) (row : Record) (k v : String)
    (pre l : CBMappings)
    (h : cbAssign? cols row k l = some v) :
    cbAssign? cols row k (pre ++ l) = some v := by
  induction pre with
  | nil => simpa using h
  | cons co pre ih => simp [cbAssign?, ih]

theorem regAssign?_eq_none_of_absent (cols : List String) (row : Record)
    (date_fields : List String) (parseDate : String → Option SimpleDate)
    (f : String) (fm : List (String × String))
    (h : ∀ cf ∈ fm, cf.2 = f → cols.contains cf.1 = false) :
    regAssign? cols row date_fields parseDate f fm = none := by
  induction fm with
  | nil => rfl
  | cons cf rest ih =>
    have hrest := ih (fun cf2 h2 => h cf2 (List.mem_cons_of_mem _ h2))
    simp only [regAssign?, hrest]
    cases hk : cf.2 == f with
    | false => rfl
    | true =>
      have hf : cf.2 = f := by simpa using hk
      have habs : cols.contains cf.1 = false := h cf (List.mem_cons_self _ _) hf
      have hv : regValue? cols row date_fields parseDate cf = none := by
        unfold regValue?
        rw [habs]
        rfl
      simp [hk, hv]

theorem regAssign?_eq_none_of_targets_ne (cols : List String) (row : Record)
    (date_fields : List String) (parseDate : String → Option SimpleDate)
    (f : String) (fm : List (String × String))
    (h : ∀ cf ∈ fm, cf.2 ≠ f) :
    regAssign? cols row date_fields parseDate f fm = none := by
  induction fm with
  | nil => rfl
  | cons cf rest ih =>
    have hrest := ih (fun cf2 h2 => h cf2 (List.mem_cons_of_mem _ h2))
    have hk : (cf.2 == f) = false := by
      simpa using h cf (List.mem_cons_self _ _)
    simp [regAssign?, hrest, hk]

theorem regAssign?_cons_self (cols : List String) (row : Record)
    (date_fields : List String) (parseDate : String → Option SimpleDate)
    (col f : String) (post : List (String × String))
    (hpost : regAssign? cols row date_fields parseDate f post = none) :
    regAssign? cols row date_fields parseDate f ((col, f) :: post) =
      regValue? cols row date_fields parseDate (col, f) := by
  simp [regAssign?, hpost]

theorem regAssign?_append_of_some (cols : List String) (row : Record)
    (date_fields : List String) (parseDate : String → Option SimpleDate)
    (f v : String) (pre l : List (String × String))
    (h : regAssign? cols row date_fields parseDate f l = some v) :
    regAssign? cols row date_fields parseDate f (pre ++ l) = some v := by
  induction pre with
  | nil => simpa using h
  | cons cf pre ih => simp [regAssign?, ih]

theorem regValue?_of_date_parse (cols : List String) (row : Record)
    (date_fields : List String) (parseDate : String → Option SimpleDate)
    (col f v : String) (d : SimpleDate)
    (hc : cols.contains col = true)
    (hcell : rowCell row col = CellValue.str v)
    (hd : date_fields.contains col = true)
    (hp : parseDate v = some d) :
    regValue? cols row date_fields parseDate (col, f) =
      some (formatMMDDYYYY d) := by
  unfold regValue?
  rw [hc]
  simp only [hcell, pdIsNull]
  rw [hd]
  simp [pyStr, hp]

theorem regValue?_of_date_parse_fail (cols : List String) (row : Record)
    (date_fields : List String) (parseDate : String → Option SimpleDate)
    (col f v : String)
    (hc : cols.contains col = true)
    (hcell : rowCell row col = CellValue.str v)
    (hd : date_fields.contains col = true)
    (hp : parseDate v = none) :
    regValue? cols row date_fields parseDate (col, f) = some v := by
  unfold regValue?
  rw [hc]
  simp only [hcell, pdIsNull]
  rw [hd]
  simp [pyStr, hp]

theorem regValue?_of_null (cols : List String) (row : Record)
    (date_fields : List String) (parseDate : String → Option SimpleDate)
    (col f : String)
    (hc : cols.contains col = true)
    (hcell : rowCell row col = CellValue.null) :
    regValue? cols row date_fields parseDate (col, f) = some "" := by
  unfold regValue?
  rw [hc]
  simp [hcell, pdIsNull]

theorem regFieldStep_warn_mono (cols : List String) (row : Record)
    (date_fields : List String) (parseDate : String → Option SimpleDate)
    (s : Dict × List Warning) (cf : String × String) (w : Warning)
    (h : w ∈ s.2) :
    w ∈ (regFieldStep cols row date_fields parseDate s cf).2 := by
  unfold regFieldStep
  cases hc : cols.contains cf.1 with
  | false => simp [h]
  | true =>
    cases hv : rowCell row cf.1 with
    | null => simpa [pdIsNull]
    | str v =>
      cases hd : date_fields.contains cf.1 with
      | false => simpa [pdIsNull, hd]
      | true =>
        cases hp : parseDate (pyStr (CellValue.str v)) with
        | none => simp [pdIsNull, hd, hp, h]
        | some d => simp [pdIsNull, hd, hp, h]

theorem checkboxStep_warn_mono (cols : List String) (row : Record)
    (s : Dict × List Warning) (co : String × List (String × CheckboxInfo))
    (w : Warning) (h : w ∈ s.2) :
    w ∈ (checkboxStep cols row s co).2 := by
  unfold checkboxStep
  cases hc : cols.contains co.1 with
  | false => simp [h]
  | true =>
    cases hl : pyGet co.2 (pyLower (pyStrip (pyStr (rowCell row co.1)))) with
    | none => simp [hl, h]
    | some info =>
      cases ht : info.truthy && info.fields.isSome <;> simp [hl, ht, h]

theorem resolveRegularFields_warn_mono (cols : List String) (row : Record)
    (date_fields : List String) (parseDate : String → Option SimpleDate)
    (fm : List (String × String)) (s : Dict × List Warning) (w : Warning)
    (h : w ∈ s.2) :
    w ∈ (resolveRegularFields cols row date_fields parseDate fm s).2 := by
  induction fm generalizing s with
  | nil => simpa [resolveRegularFields]
  | cons cf rest ih =>
    exact ih _ (regFieldStep_warn_mono cols row date_fields parseDate s cf w h)

theorem resolveCheckboxFields_warn_mono (cols : List String) (row : Record)
    (cm : CBMappings) (s : Dict × List Warning) (w : Warning)
    (h : w ∈ s.2) :
    w ∈ (resolveCheckboxFields cols row cm s).2 := by
  induction cm generalizing s with
  | nil => simpa [resolveCheckboxFields]
  | cons co rest ih =>
    exact ih _ (checkboxStep_warn_mono cols row s co w h)

theorem regFieldStep_warn_absent (cols : List String) (row : Record)
    (date_fields : List String) (parseDate : String → Option SimpleDate)
    (s : Dict × List Warning) (cf : String × String)
    (h : cols.contains cf.1 = false) :
    (regFieldStep cols row date_fields parseDate s cf).2 =
      s.2 ++ [Warning.missingColumn cf.1] := by
  unfold regFieldStep
  rw [h]
  simp

theorem regFieldStep_warn_date_fail (cols : List String) (row : Record)
    (date_fields : List String) (parseDate : String → Option SimpleDate)
    (s : Dict × List Warning) (cf : String × String) (v : String)
    (hc : cols.contains cf.1 = true)
    (hcell : rowCell row cf.1 = CellValue.str v)
    (hd : date_fields.contains cf.1 = true)
    (hp : parseDate v = none) :
    (regFieldStep cols row date_fields parseDate s cf).2 =
      s.2 ++ [Warning.dateParseFailed v] := by
  unfold regFieldStep
  rw [hc]
  simp only [hcell, pdIsNull]
  rw [hd]
  simp [pyStr, hp]

theorem checkboxStep_warn_unmatched (cols : List String) (row : Record)
    (s : Dict × List Warning) (co : String × List (String × CheckboxInfo))
    (hc : cols.contains co.1 = true)
    (hl : pyGet co.2 (pyLower (pyStrip (pyStr (rowCell row co.1)))) = none) :
    (checkboxStep cols row s co).2 =
      s.2 ++ [Warning.unrecognizedCheckbox (pyStr (rowCell row co.1)) co.1] := by
  unfold checkboxStep
  rw [hc]
  simp [hl]

theorem resolveRegularFields_warn_absent (cols : List String) (row : Record)
    (date_fields : List String) (parseDate : String → Option SimpleDate)
    (fm : List (String × String)) (s : Dict × List Warning)
    (col f : String)
    (hmem : (col, f) ∈ fm)
    (habs : cols.contains col = false) :
    Warning.missingColumn col ∈
      (resolveRegularFields cols row date_fields parseDate fm s).2 := by
  induction fm generalizing s with
  | nil => cases hmem
  | cons cf rest ih =>
    rcases List.mem_cons.mp hmem with heq | hrest
    · subst heq
      have hw : Warning.missingColumn col ∈
          (regFieldStep cols row date_fields parseDate s (col, f)).2 := by
        rw [regFieldStep_warn_absent cols row date_fields parseDate s (col, f) habs]
        simp
      exact resolveRegularFields_warn_mono cols row date_fields parseDate rest _ _ hw
    · exact ih _ hrest

theorem resolveRegularFields_warn_date_fail (cols : List String) (row : Record)
    (date_fields : List String) (parseDate : String → Option SimpleDate)
    (fm : List (String × String)) (s : Dict × List Warning)
    (col f v : String)
    (hmem : (col, f) ∈ fm)
    (hc : cols.contains col = true)
    (hcell : rowCell row col = CellValue.str v)
    (hd : date_fields.contains col = true)
    (hp : parseDate v = none) :
    Warning.dateParseFailed v ∈
      (resolveRegularFields cols row date_fields parseDate fm s).2 := by
  induction fm generalizing s with
  | nil => cases hmem
  | cons cf rest ih =>
    rcases List.mem_cons.mp hmem with heq | hrest
    · subst heq
      have hw : Warning.dateParseFailed v ∈
          (regFieldStep cols row date_fields parseDate s (col, f)).2 := by
        rw [regFieldStep_warn_date_fail cols row date_fields parseDate s (col, f) v hc hcell hd hp]
        simp
      exact resolveRegularFields_warn_mono cols row date_fields parseDate rest _ _ hw
    · exact ih _ hrest

theorem resolveCheckboxFields_warn_unmatched (cols : List String) (row : Record)
    (cm : CBMappings) (s : Dict × List Warning)
    (c : String) (opts : List (String × CheckboxInfo))
    (hmem : (c, opts) ∈ cm)
    (hc : cols.contains c = true)
    (hl : pyGet opts (pyLower (pyStrip (pyStr (rowCell row c)))) = none) :
    Warning.unrecognizedCheckbox (pyStr (rowCell row c)) c ∈
      (resolveCheckboxFields cols row cm s).2 := by
  induction cm generalizing s with
  | nil => cases hmem
  | cons co rest ih =>
    rcases List.mem_cons.mp hmem with heq | hrest
    · subst heq
      have hw : Warning.unrecognizedCheckbox (pyStr (rowCell row c)) c ∈
          (checkboxStep cols row s (c, opts)).2 := by
        rw [checkboxStep_warn_unmatched cols row s (c, opts) hc hl]
        simp
      exact resolveCheckboxFields_warn_mono cols row rest _ _ hw
    · exact ih _ hrest

theorem resolveCheckboxFields_fst_congr (cols : List String) (row : Record)
    (cm : CBMappings) (s t : Dict × List Warning) (h : s.1 = t.1) :
    (resolveCheckboxFields cols row cm s).1 =
      (resolveCheckboxFields cols row cm t).1 := by
  induction cm generalizing s t with
  | nil => simpa [resolveCheckboxFields]
  | cons co rest ih =>
    apply ih
    rw [checkboxStep_fst, checkboxStep_fst, h]

theorem resolveCheckboxFields_append (cols : List String) (row : Record)
    (l1 l2 : CBMappings) (s : Dict × List Warning) :
    resolveCheckboxFields cols row (l1 ++ l2) s =
      resolveCheckboxFields cols row l2 (resolveCheckboxFields cols row l1 s) := by
  induction l1 generalizing s with
  | nil => simp [resolveCheckboxFields]
  | cons co rest ih => simp [resolveCheckboxFields, ih]

theorem update_pages_get?_ne (doc : PdfDocument) (fv : Dict) (i : Nat)
    (h : i ≠ 0) :
    (update_page_form_field_values doc 0 fv).pages.get? i = doc.pages.get? i := by
  unfold update_page_form_field_values
  cases hf : doc.hasAcroForm with
  | false => simp
  | true =>
    cases hp : doc.pages.get? 0 with
    | none => simp
    | some p => simp [List.getElem?_set_ne (Ne.symm h)]

theorem update_no_acroform (doc : PdfDocument) (fv : Dict) (i : Nat)
    (h : doc.hasAcroForm = false) :
    update_page_form_field_values doc i fv = doc := by
  unfold update_page_form_field_values
  rw [h]
  rfl

theorem processRow_eq (tmpl : PdfDocument) (cols : List String) (row : Record)
    (index : Nat) (fm : List (String × String)) (cm : CBMappings)
    (date_fields : List String) (parseDate : String → Option SimpleDate)
    (p0 : Page) (pg : List Page)
    (hp : tmpl.pages = p0 :: pg) :
    processRow tmpl cols row index fm cm date_fields parseDate =
      some { filename := outputFilename cols row index,
             fieldValues := (resolveFields cols row fm cm date_fields parseDate).1,
             doc := update_page_form_field_values
               ⟨tmpl.pages, tmpl.hasAcroForm, tmpl.hasAcroForm⟩ 0
               (resolveFields cols row fm cm date_fields parseDate).1,
             warnings :=
               (if tmpl.hasAcroForm then [] else [Warning.noAcroForm]) ++
                 (resolveFields cols row fm cm date_fields parseDate).2 } := by
  unfold processRow
  rw [hp]
  rfl

theorem processRow_isSome (tmpl : PdfDocument) (cols : List String) (row : Record)
    (index : Nat) (fm : List (String × String)) (cm : CBMappings)
    (date_fields : List String) (parseDate : String → Option SimpleDate)
    (hp : tmpl.pages ≠ []) :
    (processRow tmpl cols row index fm cm date_fields parseDate).isSome = true := by
  cases htp : tmpl.pages with
  | nil => exact absurd htp hp
  | cons p0 pg =>
    rw [processRow_eq tmpl cols row index fm cm date_fields parseDate p0 pg htp]
    rfl

theorem processRows_get? (tmpl : PdfDocument) (cols : List String)
    (fm : List (String × String)) (cm : CBMappings)
    (date_fields : List String) (parseDate : String → Option SimpleDate)
    (rows : List Record) (i0 : Nat) (outs : List RowOutput)
    (hrun : processRows tmpl cols fm cm date_fields parseDate i0 rows = some outs)
    (j : Nat) (row : Record) (hrow : rows.get? j = some row) :
    ∃ out, outs.get? j = some out ∧
      processRow tmpl cols row (i0 + j) fm cm date_fields parseDate = some out := by
  induction rows generalizing i0 outs j with
  | nil => cases hrow
  | cons r rs ih =>
    unfold processRows at hrun
    cases h1 : processRow tmpl cols r i0 fm cm date_fields parseDate with
    | none => rw [h1] at hrun; cases hrun
    | some out1 =>
      rw [h1] at hrun
      cases h2 : processRows tmpl cols fm cm date_fields parseDate (i0 + 1) rs with
      | none => rw [h2] at hrun; cases hrun
      | some outs1 =>
        rw [h2] at hrun
        simp only [Option.some.injEq] at hrun
        subst hrun
        cases j with
        | zero =>
          simp only [List.get?] at hrow
          cases hrow
          exact ⟨out1, rfl, by simpa using h1⟩
        | succ j1 =>
          simp only [List.get?] at hrow
          obtain ⟨out, ho, hpr⟩ := ih (i0 + 1) outs1 h2 j1 hrow
          refine ⟨out, by simpa using ho, ?_⟩
          have : i0 + 1 + j1 = i0 + (j1 + 1) := by omega
          rwa [this] at hpr

theorem cbMatch?_of_hit (cols : List String) (row : Record) (c : String)
    (opts : List (String × CheckboxInfo)) (info : CheckboxInfo)
    (fl : List (String × String))
    (hc : cols.contains c = true)
    (hlookup : pyGet opts (pyLower (pyStrip (pyStr (rowCell row c)))) = some info)
    (htruthy : info.truthy = true)
    (hfields : info.fields = some fl) :
    cbMatch? cols row (c, opts) = some fl := by
  unfold cbMatch?
  rw [hc]
  simp [hlookup, htruthy, hfields]

theorem cbMatch?_of_miss (cols : List String) (row : Record) (c : String)
    (opts : List (String × CheckboxInfo))
    (hc : cols.contains c = true)
    (hl : pyGet opts (pyLower (pyStrip (pyStr (rowCell row c)))) = none) :
    cbMatch? cols row (c, opts) = none := by
  unfold cbMatch?
  rw [hc]
  simp [hl]

/-- Claim C1: for every record and every checkbox column present in the
table whose cell value — trimmed and lowercased — matches a known option
of that column's option table, exactly that option's full set of
field-identifier/value pairs is merged into the field assignment set,
with later merges overwriting earlier assignments on key collision:
every pair the option assigns is the final binding of its identifier,
provided no later checkbox column's matched option re-assigns that
identifier (last-write-wins across the full resolution pass). -/
theorem checkbox_match_merges_option_fields
    (cols : List String) (row : Record) (fm : List (String × String))
    (pre post : CBMappings) (c : String) (opts : List (String × CheckboxInfo))
    (info : CheckboxInfo) (fl : List (String × String))
    (date_fields : List String) (parseDate : String → Option SimpleDate)
    (k v : String)
    (hc : cols.contains c = true)
    (hlookup : pyGet opts (pyLower (pyStrip (pyStr (rowCell row c)))) = some info)
    (htruthy : info.truthy = true)
    (hfields : info.fields = some fl)
    (hkv : flGet fl k = some v)
    (hpost : ∀ co ∈ post, ∀ fl2, cbMatch? cols row co = some fl2 → flGet fl2 k = none) :
    pyGet (resolveFields cols row fm (pre ++ (c, opts) :: post)
      date_fields parseDate).1 k = some v := by
  have hm := cbMatch?_of_hit cols row c opts info fl hc hlookup htruthy hfields
  have hpostn := cbAssign?_eq_none cols row k post hpost
  have hcons := cbAssign?_cons_of_match cols row k v c opts fl post hpostn hm hkv
  have happ := cbAssign?_append_of_some cols row k v pre _ hcons
  rw [resolveFields_get, happ]

/-- Witness for C1: a record whose `more than $25,000?` cell is `" Yes "`
(trimmed and lowercased to `"yes"`) gets the yes-option's checked state
`/1` for `c1_1[0]` in the final assignment set. -/
theorem checkbox_match_merges_option_fields_witness :
    pyGet (resolveFields ["more than $25,000?"]
      [("more than $25,000?", CellValue.str " Yes ")] FIELD_MAPPING
      ([] ++ ("more than $25,000?",
        [("yes", CheckboxInfo.mk true (some [("c1_1[0]", "/1"), ("c1_1[1]", "")])),
         ("no", CheckboxInfo.mk true (some [("c1_1[0]", ""), ("c1_1[1]", "/2")]))]) ::
       [("new clean vehicle?",
        [("yes", CheckboxInfo.mk true (some [("c1_2[0]", "/1"), ("c1_2[1]", "")])),
         ("no", CheckboxInfo.mk true (some [("c1_2[0]", ""), ("c1_2[1]", "/2")]))])])
      DATE_FIELDS parseIsoDate).1 "c1_1[0]" = some "/1" := by
  refine checkbox_match_merges_option_fields
    ["more than $25,000?"]
    [("more than $25,000?", CellValue.str " Yes ")] FIELD_MAPPING
    []
    [("new clean vehicle?",
      [("yes", CheckboxInfo.mk true (some [("c1_2[0]", "/1"), ("c1_2[1]", "")])),
       ("no", CheckboxInfo.mk true (some [("c1_2[0]", ""), ("c1_2[1]", "/2")]))])]
    "more than $25,000?"
    [("yes", CheckboxInfo.mk true (some [("c1_1[0]", "/1"), ("c1_1[1]", "")])),
     ("no", CheckboxInfo.mk true (some [("c1_1[0]", ""), ("c1_1[1]", "/2")]))]
    (CheckboxInfo.mk true (some [("c1_1[0]", "/1"), ("c1_1[1]", "")]))
    [("c1_1[0]", "/1"), ("c1_1[1]", "")]
    DATE_FIELDS parseIsoDate "c1_1[0]" "/1"
    (by decide) (by decide) rfl rfl (by decide) ?_
  intro co hco fl2 hm
  rcases List.mem_cons.mp hco with h | h
  · subst h
    simp [cbMatch?] at hm
  · exact absurd h (List.not_mem_nil co)

/-- Claim C2: for every record and every date-field column whose cell
value parses as a date, the resolved value assigned to the mapped field
is that date rendered exactly in MM/DD/YYYY form (provided no later
mapping entry targets the same field and no matched checkbox option
re-assigns it). -/
theorem date_field_renders_mmddyyyy
    (cols : List String) (row : Record) (cm : CBMappings)
    (pre post : List (String × String)) (col f : String)
    (date_fields : List String) (parseDate : String → Option SimpleDate)
    (v : String) (d : SimpleDate)
    (hpost : ∀ cf ∈ post, cf.2 ≠ f)
    (hc : cols.contains col = true)
    (hcell : rowCell row col = CellValue.str v)
    (hd : date_fields.contains col = true)
    (hparse : parseDate v = some d)
    (hcb : ∀ co ∈ cm, ∀ fl, cbMatch? cols row co = some fl → flGet fl f = none) :
    pyGet (resolveFields cols row (pre ++ (col, f) :: post) cm
      date_fields parseDate).1 f = some (formatMMDDYYYY d) := by
  have hcbn := cbAssign?_eq_none cols row f cm hcb
  have hpostn := regAssign?_eq_none_of_targets_ne cols row date_fields parseDate f post hpost
  have hv := regValue?_of_date_parse cols row date_fields parseDate col f v d hc hcell hd hparse
  have hcons : regAssign? cols row date_fields parseDate f ((col, f) :: post)
      = some (formatMMDDYYYY d) := by
    rw [regAssign?_cons_self cols row date_fields parseDate col f post hpostn, hv]
  have happ := regAssign?_append_of_some cols row date_fields parseDate f _ pre _ hcons
  rw [resolveFields_get, hcbn]
  simpa using happ

/-- Witness for C2: a `Date in Service` cell holding `"2023-04-15"`
resolves to `"04/15/2023"` for field `f1_07[0]`. -/
theorem date_field_renders_mmddyyyy_witness :
    pyGet (resolveFields ["Date in Service"]
      [("Date in Service", CellValue.str "2023-04-15")]
      ([] ++ ("Date in Service", "f1_07[0]") :: []) []
      DATE_FIELDS parseIsoDate).1 "f1_07[0]" = some "04/15/2023" := by
  have h := date_field_renders_mmddyyyy ["Date in Service"]
    [("Date in Service", CellValue.str "2023-04-15")] [] [] []
    "Date in Service" "f1_07[0]" DATE_FIELDS parseIsoDate
    "2023-04-15" (SimpleDate.mk 2023 4 15)
    (by decide) (by decide) (by decide) (by decide) (by decide)
    (fun co hco => absurd hco (List.not_mem_nil co))
  simpa using h

/-- Claim C3: for every mapping entry whose column is absent from the
table, the target field is omitted from the field assignment set (given
that no other mapping entry with that target is present and no matched
checkbox option assigns it), a missing-column warning is emitted, and
the record still produces an output document. -/
theorem absent_column_field_omitted
    (tmpl : PdfDocument) (cols : List String) (row : Record) (index : Nat)
    (fm : List (String × String)) (cm : CBMappings)
    (date_fields : List String) (parseDate : String → Option SimpleDate)
    (col f : String)
    (hmem : (col, f) ∈ fm)
    (habs : cols.contains col = false)
    (hall : ∀ cf ∈ fm, cf.2 = f → cols.contains cf.1 = false)
    (hcb : ∀ co ∈ cm, ∀ fl, cbMatch? cols row co = some fl → flGet fl f = none)
    (hp : tmpl.pages ≠ []) :
    ∃ out, processRow tmpl cols row index fm cm date_fields parseDate = some out ∧
      pyGet out.fieldValues f = none ∧
      Warning.missingColumn col ∈ out.warnings := by
  cases htp : tmpl.pages with
  | nil => exact absurd htp hp
  | cons p0 pg =>
    refine ⟨_, processRow_eq tmpl cols row index fm cm date_fields parseDate p0 pg htp,
      ?_, ?_⟩
    · show pyGet (resolveFields cols row fm cm date_fields parseDate).1 f = none
      rw [resolveFields_get, cbAssign?_eq_none cols row f cm hcb]
      simpa using regAssign?_eq_none_of_absent cols row date_fields parseDate f fm hall
    · show Warning.missingColumn col ∈
        (if tmpl.hasAcroForm then [] else [Warning.noAcroForm]) ++
          (resolveFields cols row fm cm date_fields parseDate).2
      apply List.mem_append_right
      unfold resolveFields
      exact resolveCheckboxFields_warn_mono cols row cm _ _
        (resolveRegularFields_warn_absent cols row date_fields parseDate fm _ col f
          hmem habs)

/-- Witness for C3: mapping entry `Name(s) -> f1_01[0]` with the table
only containing a `Year` column: the field is omitted, the warning is
logged, and the row still yields an output. -/
theorem absent_column_field_omitted_witness :
    ∃ out, processRow (PdfDocument.mk [Page.mk [("f1_01[0]", "")]] true true)
        ["Year"] [("Year", CellValue.str "2024")] 0
        [("Name(s)", "f1_01[0]")] [] DATE_FIELDS parseIsoDate = some out ∧
      pyGet out.fieldValues "f1_01[0]" = none ∧
      Warning.missingColumn "Name(s)" ∈ out.warnings :=
  absent_column_field_omitted
    (PdfDocument.mk [Page.mk [("f1_01[0]", "")]] true true)
    ["Year"] [("Year", CellValue.str "2024")] 0
    [("Name(s)", "f1_01[0]")] [] DATE_FIELDS parseIsoDate
    "Name(s)" "f1_01[0]"
    (by decide) (by decide) (by decide)
    (fun co hco => absurd hco (List.not_mem_nil co))
    (by decide)

/-- Claim C4: for every mapped column present in the table whose cell is
missing/null, the mapped field is assigned the empty string — the
assignment is present in the field assignment set, not omitted (given
that no later mapping entry targets the same field and no matched
checkbox option re-assigns it). -/
theorem null_cell_assigns_empty_string
    (cols : List String) (row : Record) (cm : CBMappings)
    (pre post : List (String × String)) (col f : String)
    (date_fields : List String) (parseDate : String → Option SimpleDate)
    (hpost : ∀ cf ∈ post, cf.2 ≠ f)
    (hc : cols.contains col = true)
    (hcell : rowCell row col = CellValue.null)
    (htext : date_fields.contains col = false)
    (hcb : ∀ co ∈ cm, ∀ fl, cbMatch? cols row co = some fl → flGet fl f = none) :
    pyGet (resolveFields cols row (pre ++ (col, f) :: post) cm
      date_fields parseDate).1 f = some "" := by
  have hcbn := cbAssign?_eq_none cols row f cm hcb
  have hpostn := regAssign?_eq_none_of_targets_ne cols row date_fields parseDate f post hpost
  have hv := regValue?_of_null cols row date_fields parseDate col f hc hcell
  have hcons : regAssign? cols row date_fields parseDate f ((col, f) :: post)
      = some "" := by
    rw [regAssign?_cons_self cols row date_fields parseDate col f post hpostn, hv]
  have happ := regAssign?_append_of_some cols row date_fields parseDate f _ pre _ hcons
  rw [resolveFields_get, hcbn]
  simpa using happ

/-- Witness for C4: a null `Name(s)` cell resolves to the empty string
for `f1_01[0]`, present in the assignment set. -/
theorem null_cell_assigns_empty_string_witness :
    pyGet (resolveFields ["Name(s)"] [("Name(s)", CellValue.null)]
      ([] ++ ("Name(s)", "f1_01[0]") :: []) []
      DATE_FIELDS parseIsoDate).1 "f1_01[0]" = some "" :=
  null_cell_assigns_empty_string ["Name(s)"] [("Name(s)", CellValue.null)] []
    [] [] "Name(s)" "f1_01[0]" DATE_FIELDS parseIsoDate
    (by decide) (by decide) (by decide) (by decide)
    (fun co hco => absurd hco (List.not_mem_nil co))

/-- Claim C5: for every checkbox column present in the table whose
normalized cell value matches no option, the field assignment set is
exactly what it would be with that checkbox column's entry removed (none
of the group's identifiers are added), an unrecognized-value warning is
logged, and the record still produces an output document. -/
theorem unmatched_checkbox_leaves_group_untouched
    (tmpl : PdfDocument) (cols : List String) (row : Record) (index : Nat)
    (fm : List (String × String)) (pre post : CBMappings)
    (c : String) (opts : List (String × CheckboxInfo))
    (date_fields : List String) (parseDate : String → Option SimpleDate)
    (hc : cols.contains c = true)
    (hl : pyGet opts (pyLower (pyStrip (pyStr (rowCell row c)))) = none)
    (hp : tmpl.pages ≠ []) :
    ∃ out, processRow tmpl cols row index fm (pre ++ (c, opts) :: post)
        date_fields parseDate = some out ∧
      out.fieldValues =
        (resolveFields cols row fm (pre ++ post) date_fields parseDate).1 ∧
      Warning.unrecognizedCheckbox (pyStr (rowCell row c)) c ∈ out.warnings := by
  have hm := cbMatch?_of_miss cols row c opts hc hl
  cases htp : tmpl.pages with
  | nil => exact absurd htp hp
  | cons p0 pg =>
    refine ⟨_, processRow_eq tmpl cols row index fm (pre ++ (c, opts) :: post)
      date_fields parseDate p0 pg htp, ?_, ?_⟩
    · show (resolveFields cols row fm (pre ++ (c, opts) :: post) date_fields parseDate).1
        = (resolveFields cols row fm (pre ++ post) date_fields parseDate).1
      unfold resolveFields
      rw [resolveCheckboxFields_append, resolveCheckboxFields_append]
      have hstep : (checkboxStep cols row
          (resolveCheckboxFields cols row pre
            (resolveRegularFields cols row date_fields parseDate fm ([], [])))
          (c, opts)).1 =
          (resolveCheckboxFields cols row pre
            (resolveRegularFields cols row date_fields parseDate fm ([], []))).1 := by
        rw [checkboxStep_fst, hm]
      exact resolveCheckboxFields_fst_congr cols row post _ _ hstep
    · show Warning.unrecognizedCheckbox (pyStr (rowCell row c)) c ∈
        (if tmpl.hasAcroForm then [] else [Warning.noAcroForm]) ++
          (resolveFields cols row fm (pre ++ (c, opts) :: post) date_fields parseDate).2
      apply List.mem_append_right
      unfold resolveFields
      exact resolveCheckboxFields_warn_unmatched cols row _ _ c opts
        (List.mem_append_right pre (List.mem_cons_self _ _)) hc hl

/-- Witness for C5: a `more than $25,000?` cell holding `"maybe"` leaves
the assignment set as if that checkbox column were not mapped, logs the
warning, and the row still yields an output. -/
theorem unmatched_checkbox_leaves_group_untouched_witness :
    ∃ out, processRow (PdfDocument.mk [Page.mk [("c1_1[0]", "")]] true true)
        ["more than $25,000?"] [("more than $25,000?", CellValue.str "maybe")] 0
        FIELD_MAPPING
        ([] ++ ("more than $25,000?",
          [("yes", CheckboxInfo.mk true (some [("c1_1[0]", "/1"), ("c1_1[1]", "")])),
           ("no", CheckboxInfo.mk true (some [("c1_1[0]", ""), ("c1_1[1]", "/2")]))]) :: [])
        DATE_FIELDS parseIsoDate = some out ∧
      out.fieldValues =
        (resolveFields ["more than $25,000?"]
          [("more than $25,000?", CellValue.str "maybe")] FIELD_MAPPING
          ([] ++ []) DATE_FIELDS parseIsoDate).1 ∧
      Warning.unrecognizedCheckbox
        (pyStr (rowCell [("more than $25,000?", CellValue.str "maybe")]
          "more than $25,000?"))
        "more than $25,000?" ∈ out.warnings :=
  unmatched_checkbox_leaves_group_untouched
    (PdfDocument.mk [Page.mk [("c1_1[0]", "")]] true true)
    ["more than $25,000?"] [("more than $25,000?", CellValue.str "maybe")] 0
    FIELD_MAPPING []
    []
    "more than $25,000?"
    [("yes", CheckboxInfo.mk true (some [("c1_1[0]", "/1"), ("c1_1[1]", "")])),
     ("no", CheckboxInfo.mk true (some [("c1_1[0]", ""), ("c1_1[1]", "/2")]))]
    DATE_FIELDS parseIsoDate
    (by decide) (by decide) (by decide)

/-- Claim C6: for every date-field column present in the table whose
non-empty cell value fails to parse as a date, the resolved value equals
the raw value's plain string form, a date-parse warning is recorded, and
the row still produces an output document (given that no later mapping
entry targets the same field and no matched checkbox option re-assigns
it). -/
theorem unparseable_date_falls_back_to_raw
    (tmpl : PdfDocument) (cols : List String) (row : Record) (index : Nat)
    (cm : CBMappings) (pre post : List (String × String)) (col f : String)
    (date_fields : List String) (parseDate : String → Option SimpleDate)
    (v : String)
    (hne : v ≠ "")
    (hpost : ∀ cf ∈ post, cf.2 ≠ f)
    (hc : cols.contains col = true)
    (hcell : rowCell row col = CellValue.str v)
    (hd : date_fields.contains col = true)
    (hparse : parseDate v = none)
    (hcb : ∀ co ∈ cm, ∀ fl, cbMatch? cols row co = some fl → flGet fl f = none)
    (hp : tmpl.pages ≠ []) :
    ∃ out, processRow tmpl cols row index (pre ++ (col, f) :: post) cm
        date_fields parseDate = some out ∧
      pyGet out.fieldValues f = some v ∧
      Warning.dateParseFailed v ∈ out.warnings := by
  cases htp : tmpl.pages with
  | nil => exact absurd htp hp
  | cons p0 pg =>
    refine ⟨_, processRow_eq tmpl cols row index (pre ++ (col, f) :: post) cm
      date_fields parseDate p0 pg htp, ?_, ?_⟩
    · show pyGet (resolveFields cols row (pre ++ (col, f) :: post) cm
        date_fields parseDate).1 f = some v
      have hcbn := cbAssign?_eq_none cols row f cm hcb
      have hpostn := regAssign?_eq_none_of_targets_ne cols row date_fields parseDate
        f post hpost
      have hv := regValue?_of_date_parse_fail cols row date_fields parseDate col f v
        hc hcell hd hparse
      have hcons : regAssign? cols row date_fields parseDate f ((col, f) :: post)
          = some v := by
        rw [regAssign?_cons_self cols row date_fields parseDate col f post hpostn, hv]
      have happ := regAssign?_append_of_some cols row date_fields parseDate f _ pre _ hcons
      rw [resolveFields_get, hcbn]
      simpa using happ
    · show Warning.dateParseFailed v ∈
        (if tmpl.hasAcroForm then [] else [Warning.noAcroForm]) ++
          (resolveFields cols row (pre ++ (col, f) :: post) cm date_fields parseDate).2
      apply List.mem_append_right
      unfold resolveFields
      exact resolveCheckboxFields_warn_mono cols row cm _ _
        (resolveRegularFields_warn_date_fail cols row date_fields parseDate _ _ col f v
          (List.mem_append_right pre (List.mem_cons_self _ _)) hc hcell hd hparse)

/-- Witness for C6: a `Date in Service` cell holding `"hello"` resolves
to `"hello"` for `f1_07[0]` with a date-parse warning, and the row still
yields an output. -/
theorem unparseable_date_falls_back_to_raw_witness :
    ∃ out, processRow (PdfDocument.mk [Page.mk [("f1_07[0]", "")]] true true)
        ["Date in Service"] [("Date in Service", CellValue.str "hello")] 0
        ([] ++ ("Date in Service", "f1_07[0]") :: []) []
        DATE_FIELDS parseIsoDate = some out ∧
      pyGet out.fieldValues "f1_07[0]" = some "hello" ∧
      Warning.dateParseFailed "hello" ∈ out.warnings :=
  unparseable_date_falls_back_to_raw
    (PdfDocument.mk [Page.mk [("f1_07[0]", "")]] true true)
    ["Date in Service"] [("Date in Service", CellValue.str "hello")] 0
    [] [] [] "Date in Service" "f1_07[0]" DATE_FIELDS parseIsoDate "hello"
    (by decide) (by decide) (by decide) (by decide) (by decide) (by decide)
    (fun co hco => absurd hco (List.not_mem_nil co))
    (by decide)

/-- Claim C7: each record's output name is the `filename` column's value
with `.pdf` appended when that column exists, and the positional
fallback `output_<N>.pdf` with `N` the record's 1-based row index
otherwise. -/
theorem output_name_from_filename_or_index
    (tmpl : PdfDocument) (cols : List String) (rows : List Record)
    (fm : List (String × String)) (cm : CBMappings)
    (date_fields : List String) (parseDate : String → Option SimpleDate)
    (outs : List RowOutput) (j : Nat) (row : Record)
    (hrun : fill_pdf_with_data tmpl cols rows fm cm date_fields parseDate = some outs)
    (hrow : rows.get? j = some row) :
    ∃ out, outs.get? j = some out ∧
      out.filename = (if cols.contains "filename"
        then pyStr (rowCell row "filename") ++ ".pdf"
        else "output_" ++ toString (j + 1) ++ ".pdf") := by
  obtain ⟨out, ho, hpr⟩ := processRows_get? tmpl cols fm cm date_fields parseDate
    rows 0 outs hrun j row hrow
  refine ⟨out, ho, ?_⟩
  cases htp : tmpl.pages with
  | nil => simp [processRow, htp] at hpr
  | cons p0 pg =>
    rw [processRow_eq tmpl cols row (0 + j) fm cm date_fields parseDate p0 pg htp] at hpr
    injection hpr with h
    subst h
    show outputFilename cols row (0 + j) = _
    simp [outputFilename, Nat.zero_add]

/-- Witness for C7: the record at 1-based row index 3 of a table with no
`filename` column is written as `output_3.pdf`. -/
theorem output_name_from_filename_or_index_witness :
    ∃ out,
      ([RowOutput.mk "output_1.pdf" [] (PdfDocument.mk [Page.mk []] false false)
          [Warning.noAcroForm],
        RowOutput.mk "output_2.pdf" [] (PdfDocument.mk [Page.mk []] false false)
          [Warning.noAcroForm],
        RowOutput.mk "output_3.pdf" [] (PdfDocument.mk [Page.mk []] false false)
          [Warning.noAcroForm]] : List RowOutput).get? 2 = some out ∧
      out.filename = (if ([] : List String).contains "filename"
        then pyStr (rowCell [] "filename") ++ ".pdf"
        else "output_" ++ toString (2 + 1) ++ ".pdf") :=
  output_name_from_filename_or_index
    (PdfDocument.mk [Page.mk []] false false) [] [[], [], []] [] [] [] parseIsoDate
    [RowOutput.mk "output_1.pdf" [] (PdfDocument.mk [Page.mk []] false false)
        [Warning.noAcroForm],
     RowOutput.mk "output_2.pdf" [] (PdfDocument.mk [Page.mk []] false false)
        [Warning.noAcroForm],
     RowOutput.mk "output_3.pdf" [] (PdfDocument.mk [Page.mk []] false false)
        [Warning.noAcroForm]]
    2 []
    (by decide) (by decide)

/-- Claim C8: on a template with no interactive-form dictionary, the
filler warns and continues: the row still produces an output document,
one whose pages are untouched by the field application (no fillable
fields, so applying the assignment set has no effect). -/
theorem no_acroform_warns_and_continues
    (tmpl : PdfDocument) (cols : List String) (row : Record) (index : Nat)
    (fm : List (String × String)) (cm : CBMappings)
    (date_fields : List String) (parseDate : String → Option SimpleDate)
    (hform : tmpl.hasAcroForm = false)
    (hp : tmpl.pages ≠ []) :
    ∃ out, processRow tmpl cols row index fm cm date_fields parseDate = some out ∧
      Warning.noAcroForm ∈ out.warnings ∧
      out.doc.pages = tmpl.pages ∧
      out.doc.hasAcroForm = false := by
  obtain ⟨p0, pg, htp⟩ : ∃ p0 pg, tmpl.pages = p0 :: pg := by
    cases h : tmpl.pages with
    | nil => exact absurd h hp
    | cons a b => exact ⟨a, b, rfl⟩
  have hupd := update_no_acroform
    (PdfDocument.mk tmpl.pages tmpl.hasAcroForm tmpl.hasAcroForm)
    ((resolveFields cols row fm cm date_fields parseDate).1) 0 hform
  refine ⟨_, processRow_eq tmpl cols row index fm cm date_fields parseDate p0 pg htp,
    ?_, ?_, ?_⟩
  · show Warning.noAcroForm ∈
      (if tmpl.hasAcroForm then [] else [Warning.noAcroForm]) ++
        (resolveFields cols row fm cm date_fields parseDate).2
    rw [hform]
    simp
  · show (update_page_form_field_values
      (PdfDocument.mk tmpl.pages tmpl.hasAcroForm tmpl.hasAcroForm) 0
      (resolveFields cols row fm cm date_fields parseDate).1).pages = tmpl.pages
    rw [hupd]
  · show (update_page_form_field_values
      (PdfDocument.mk tmpl.pages tmpl.hasAcroForm tmpl.hasAcroForm) 0
      (resolveFields cols row fm cm date_fields parseDate).1).hasAcroForm = false
    rw [hupd]
    exact hform

/-- Witness for C8: a one-page template without a form dictionary still
yields an output for the row, with the warning logged and its page list
unchanged. -/
theorem no_acroform_warns_and_continues_witness :
    ∃ out, processRow (PdfDocument.mk [Page.mk [("f1_01[0]", "x")]] false false)
        ["Name(s)"] [("Name(s)", CellValue.str "Jane Doe")] 0
        FIELD_MAPPING CHECKBOX_MAPPINGS DATE_FIELDS parseIsoDate = some out ∧
      Warning.noAcroForm ∈ out.warnings ∧
      out.doc.pages = (PdfDocument.mk [Page.mk [("f1_01[0]", "x")]] false false).pages ∧
      out.doc.hasAcroForm = false :=
  no_acroform_warns_and_continues
    (PdfDocument.mk [Page.mk [("f1_01[0]", "x")]] false false)
    ["Name(s)"] [("Name(s)", CellValue.str "Jane Doe")] 0
    FIELD_MAPPING CHECKBOX_MAPPINGS DATE_FIELDS parseIsoDate
    rfl (by decide)

/-- Claim C9: the pipeline is deterministic — two runs on identical
table, mapping tables, date-field set, and template produce equal
outcomes, and in particular every record's field assignment set is
identical in both runs. -/
theorem pipeline_deterministic
    (tmpl : PdfDocument) (cols : List String) (rows : List Record)
    (fm : List (String × String)) (cm : CBMappings)
    (date_fields : List String) (parseDate : String → Option SimpleDate)
    (o1 o2 : Option (List RowOutput))
    (h1 : fill_pdf_with_data tmpl cols rows fm cm date_fields parseDate = o1)
    (h2 : fill_pdf_with_data tmpl cols rows fm cm date_fields parseDate = o2) :
    o1 = o2 ∧
      o1.map (fun outs => outs.map RowOutput.fieldValues) =
        o2.map (fun outs => outs.map RowOutput.fieldValues) := by
  subst h1
  subst h2
  exact ⟨rfl, rfl⟩

/-- Witness for C9: two runs on the same one-row table agree. -/
theorem pipeline_deterministic_witness :
    fill_pdf_with_data (PdfDocument.mk [Page.mk [("f1_01[0]", "")]] true true)
        ["Name(s)"] [[("Name(s)", CellValue.str "Jane Doe")]]
        FIELD_MAPPING CHECKBOX_MAPPINGS DATE_FIELDS parseIsoDate =
      fill_pdf_with_data (PdfDocument.mk [Page.mk [("f1_01[0]", "")]] true true)
        ["Name(s)"] [[("Name(s)", CellValue.str "Jane Doe")]]
        FIELD_MAPPING CHECKBOX_MAPPINGS DATE_FIELDS parseIsoDate ∧
      (fill_pdf_with_data (PdfDocument.mk [Page.mk [("f1_01[0]", "")]] true true)
        ["Name(s)"] [[("Name(s)", CellValue.str "Jane Doe")]]
        FIELD_MAPPING CHECKBOX_MAPPINGS DATE_FIELDS parseIsoDate).map
          (fun outs => outs.map RowOutput.fieldValues) =
      (fill_pdf_with_data (PdfDocument.mk [Page.mk [("f1_01[0]", "")]] true true)
        ["Name(s)"] [[("Name(s)", CellValue.str "Jane Doe")]]
        FIELD_MAPPING CHECKBOX_MAPPINGS DATE_FIELDS parseIsoDate).map
          (fun outs => outs.map RowOutput.fieldValues) :=
  pipeline_deterministic (PdfDocument.mk [Page.mk [("f1_01[0]", "")]] true true)
    ["Name(s)"] [[("Name(s)", CellValue.str "Jane Doe")]]
    FIELD_MAPPING CHECKBOX_MAPPINGS DATE_FIELDS parseIsoDate
    (fill_pdf_with_data (PdfDocument.mk [Page.mk [("f1_01[0]", "")]] true true)
        ["Name(s)"] [[("Name(s)", CellValue.str "Jane Doe")]]
        FIELD_MAPPING CHECKBOX_MAPPINGS DATE_FIELDS parseIsoDate)
    (fill_pdf_with_data (PdfDocument.mk [Page.mk [("f1_01[0]", "")]] true true)
        ["Name(s)"] [[("Name(s)", CellValue.str "Jane Doe")]]
        FIELD_MAPPING CHECKBOX_MAPPINGS DATE_FIELDS parseIsoDate)
    rfl rfl

/-- Claim C10: the resolved field assignment set is applied only to the
first page of the output document; every page other than page one is
exactly the template's page, regardless of the assignment set. -/
theorem assignments_only_first_page
    (tmpl : PdfDocument) (cols : List String) (row : Record) (index : Nat)
    (fm : List (String × String)) (cm : CBMappings)
    (date_fields : List String) (parseDate : String → Option SimpleDate)
    (out : RowOutput) (i : Nat)
    (hrun : processRow tmpl cols row index fm cm date_fields parseDate = some out)
    (hi : 1 ≤ i) :
    out.doc.pages.get? i = tmpl.pages.get? i := by
  obtain ⟨p0, pg, htp⟩ : ∃ p0 pg, tmpl.pages = p0 :: pg := by
    cases h : tmpl.pages with
    | nil =>
      rw [processRow] at hrun
      rw [h] at hrun
      cases hrun
    | cons a b => exact ⟨a, b, rfl⟩
  rw [processRow_eq tmpl cols row index fm cm date_fields parseDate p0 pg htp] at hrun
  injection hrun with h
  subst h
  exact update_pages_get?_ne
    (PdfDocument.mk tmpl.pages tmpl.hasAcroForm tmpl.hasAcroForm)
    ((resolveFields cols row fm cm date_fields parseDate).1) i (by omega)

/-- Witness for C10: on a two-page template, page two of the output is
the template's page two even though fields were applied. -/
theorem assignments_only_first_page_witness :
    (RowOutput.mk "output_1.pdf" []
      (PdfDocument.mk [Page.mk [], Page.mk [("a", "b")]] true true)
      []).doc.pages.get? 1 =
    (PdfDocument.mk [Page.mk [], Page.mk [("a", "b")]] true true).pages.get? 1 :=
  assignments_only_first_page
    (PdfDocument.mk [Page.mk [], Page.mk [("a", "b")]] true true)
    [] [] 0 [] [] [] parseIsoDate
    (RowOutput.mk "output_1.pdf" []
      (PdfDocument.mk [Page.mk [], Page.mk [("a", "b")]] true true) [])
    1 (by decide) (by decide)

end ExcelFillPDF
